import Mathlib

set_option maxHeartbeats 1000000
set_option maxRecDepth 8000

/- Verification development for the GridPilot weather-acquisition pipeline.
   Part 1 models the vision-scanner module (parseWeatherGraph, normalizeArray,
   createFallbackProfile); part 2 models the weather service
   (fetchHourlyWeather, the two live-provider adapters and the Agra offline
   synthesis).  JavaScript numbers reached by the Number() coercion are
   modelled as an inductive with NaN, signed infinities and finite rationals;
   the float rounding of toFixed is modelled as exact round-half-up on the
   reals/rationals. -/

/-- Result of the JavaScript Number() coercion: NaN, a signed infinity, or a
finite value (modelled as a rational, since every finite double is rational). -/
inductive JSNum where
  | nan : JSNum
  | inf (pos : Bool) : JSNum
  | fin (q : ℚ) : JSNum
deriving DecidableEq, Inhabited

/-- JavaScript values that can occur as elements of the arrays handed to
normalizeArray: numbers, strings, null, undefined, booleans. -/
inductive JSVal where
  | num (n : JSNum) : JSVal
  | str (s : String) : JSVal
  | null : JSVal
  | undef : JSVal
  | bool (b : Bool) : JSVal
deriving DecidableEq, Inhabited

/-- Whitespace characters recognised when trimming a string before numeric
coercion. -/
def isSpaceChar (c : Char) : Bool :=
  (c = ' ') || (c = '\t') || (c = '\n') || (c = '\r')

/-- Trim whitespace from both ends of a character list. -/
def trimChars (l : List Char) : List Char :=
  ((l.dropWhile isSpaceChar).reverse.dropWhile isSpaceChar).reverse

/-- Decimal digit value of a character, none if it is not a digit. -/
def digitVal (c : Char) : Option ℕ :=
  if 48 ≤ c.toNat ∧ c.toNat ≤ 57 then some (c.toNat - 48) else none

/-- Value of a string of decimal digits, none as soon as one character is not
a digit.  The empty list gives 0, matching Number() on whitespace-only
strings. -/
def digitsVal (l : List Char) : Option ℕ :=
  l.foldl
    (fun acc c =>
      match acc, digitVal c with
      | some a, some d => some (a * 10 + d)
      | _, _ => none)
    (some 0)

/-- Number() on a string: a trimmed empty string gives 0, an optionally
negated integer literal gives its value, anything else gives NaN.  This
models the fragment of the JavaScript string-to-number coercion exercised by
this development (the sources only ever coerce non-numeric strings such as a
literal letter; decimal, hex, exponent and Infinity literal forms never occur
here and are not modelled). -/
def jsStrToNumber (s : String) : JSNum :=
  match trimChars s.toList with
  | [] => JSNum.fin 0
  | c :: rest =>
    if c = '-' then
      match rest, digitsVal rest with
      | [], _ => JSNum.nan
      | _, some n => JSNum.fin (-(n : ℚ))
      | _, none => JSNum.nan
    else
      match digitsVal (c :: rest) with
      | some n => JSNum.fin n
      | none => JSNum.nan

/-- The JavaScript Number() coercion on the modelled value domain:
numbers pass through, null gives 0, undefined gives NaN, booleans give 1/0. -/
def jsToNumber : JSVal → JSNum
  | JSVal.num n => n
  | JSVal.str s => jsStrToNumber s
  | JSVal.null => JSNum.fin 0
  | JSVal.undef => JSNum.nan
  | JSVal.bool b => JSNum.fin (if b then 1 else 0)

/-- Whether a value is null or undefined (the values on which the JavaScript
nullish-coalescing operator selects its right operand). -/
def isNullish : JSVal → Bool
  | JSVal.null => true
  | JSVal.undef => true
  | _ => false

/-- Models the expression pushed by one iteration of the padding loop in
normalizeArray: result[result.length - 1] ?? fillValue.  Accessing index
length - 1 of an empty array yields undefined, so the coalescing yields the
fill value exactly when the list is empty or its last element is nullish. -/
def nextPush (l : List JSVal) (fill : ℚ) : JSVal :=
  match l.getLast? with
  | none => JSVal.num (JSNum.fin fill)
  | some v => if isNullish v then JSVal.num (JSNum.fin fill) else v

/-- The padding while-loop of normalizeArray (while result.length < 24 push
result[result.length - 1] ?? fillValue).  Each iteration appends exactly one
element and the loop only runs while the length is below 24, so a fuel of 24
iterations always suffices; the loop is modelled with that fuel so that the
definition is structurally recursive and executable. -/
def padGo : ℕ → List JSVal → ℚ → List JSVal
  | 0, l, _ => l
  | Nat.succ n, l, fill =>
    if l.length < 24 then padGo n (l ++ [nextPush l fill]) fill else l

/-- The element coercion of normalizeArray (src/unnamed/part_001 lines
197-200): const num = Number(n); return isNaN(num) ? fillValue : num.
Note isNaN is false on the infinities, so they pass through unchanged. -/
def coerceElem (fill : ℚ) (v : JSVal) : JSNum :=
  match jsToNumber v with
  | JSNum.nan => JSNum.fin fill
  | n => n

/-- normalizeArray (src/unnamed/part_001 lines 187-201).  A non-array input
(modelled by none) yields 24 copies of the fill value; an array is padded by
the while-loop, truncated with slice(0, 24) and element-coerced. -/
def normalizeArray (input : Option (List JSVal)) (fill : ℚ) : List JSNum :=
  match input with
  | none => List.replicate 24 (JSNum.fin fill)
  | some l => ((padGo 24 l fill).take 24).map (coerceElem fill)

/-- The canonical result shape of the vision scanner. -/
structure ScannedWeatherData where
  hourlyTemp : List JSNum
  hourlyHumidity : List JSNum
  hourlyCloud : List JSNum
deriving DecidableEq

/-- createFallbackProfile (src/unnamed/part_001 lines 203-207). -/
def createFallbackProfile : ScannedWeatherData :=
  { hourlyTemp := List.replicate 24 (JSNum.fin 25)
    hourlyHumidity := List.replicate 24 (JSNum.fin 50)
    hourlyCloud := List.replicate 24 (JSNum.fin 0) }

/-- Outcome of the generative-vision call inside parseWeatherGraph: a thrown
rejection (from fileToGenerativePart or generateContent), a response without
text, a JSON.parse failure, or a decoded object whose three fields are each
either an array of values or a non-array (modelled by none). -/
inductive VisionOutcome where
  | thrown : VisionOutcome
  | noText : VisionOutcome
  | badJson : VisionOutcome
  | parsed (t h c : Option (List JSVal)) : VisionOutcome

/-- JavaScript truthiness of an optional credential string: absent and empty
strings are falsy. -/
def isTruthyKey : Option String → Bool
  | none => false
  | some s => !s.isEmpty

/-- parseWeatherGraph (src/unnamed/part_001 lines 121-183): with a falsy
credential it returns the fallback profile immediately; otherwise every
failure of the try-block is caught and also yields the fallback profile, and
a successfully decoded object has its three fields normalized with fill
constants 25, 50 and 0. -/
def parseWeatherGraph (apiKey : Option String) (o : VisionOutcome) : ScannedWeatherData :=
  if isTruthyKey apiKey then
    match o with
    | VisionOutcome.parsed t h c =>
      { hourlyTemp := normalizeArray t 25
        hourlyHumidity := normalizeArray h 50
        hourlyCloud := normalizeArray c 0 }
    | _ => createFallbackProfile
  else createFallbackProfile

/- Part 2: the weather service (src/services/geminiService.ts).  Temperatures
use the real cosine, so the service definitions are noncomputable; the float
arithmetic of the source is modelled as exact real arithmetic, and
parseFloat(x.toFixed(d)) as round-half-up to d decimals (the ECMAScript
toFixed picks the closest n / 10^d, the larger one on ties). -/

/-- Metadata block of a weather response. -/
structure WeatherMeta where
  date : String
  source : String
  lastUpdated : String
  isFallback : Bool

/-- The WeatherResponse shape of geminiService.ts (the canonical
observation): three hourly arrays, decimal sunrise/sunset hours, metadata and
an optional diagnostic error message. -/
structure WeatherResponse where
  hourlyTemp : List ℝ
  hourlyHumidity : List ℝ
  hourlyCloud : List ℝ
  sunriseHour : ℝ
  sunsetHour : ℝ
  meta : WeatherMeta
  error : Option String

/-- The four cloud-profile kinds of the Agra climate table. -/
inductive CloudKind where
  | clear : CloudKind
  | hazy : CloudKind
  | overcast : CloudKind
  | buildup : CloudKind
deriving DecidableEq, Inhabited

/-- One row of the AGRA_BASE climate table.  The numeric fields are the exact
decimal literals of the source, kept as rationals so that facts about the
table are decidable. -/
structure AgraDay where
  dayOffset : ℕ
  condition : String
  maxT : ℚ
  minT : ℚ
  humidBase : ℚ
  cloudProfile : CloudKind
  sunR : ℚ
  sunS : ℚ
deriving DecidableEq, Inhabited

/-- The ten-entry AGRA_BASE table of generateAgraForecast (geminiService.ts
lines 97-108). -/
def AGRA_BASE : List AgraDay :=
  [⟨0, "Clear", 28.5, 12.4, 45, CloudKind.clear, 6.72, 18.25⟩,
   ⟨1, "Hazy Sun", 29.1, 13.1, 50, CloudKind.hazy, 6.70, 18.27⟩,
   ⟨2, "Sunny", 30.2, 13.5, 40, CloudKind.clear, 6.68, 18.28⟩,
   ⟨3, "Partly Cloudy", 27.8, 14.2, 55, CloudKind.buildup, 6.67, 18.30⟩,
   ⟨4, "Cloudy", 26.5, 15.1, 65, CloudKind.overcast, 6.65, 18.32⟩,
   ⟨5, "Clear", 28.0, 13.0, 42, CloudKind.clear, 6.63, 18.33⟩,
   ⟨6, "Sunny", 29.5, 13.8, 38, CloudKind.clear, 6.62, 18.35⟩,
   ⟨7, "Hazy", 31.0, 14.5, 48, CloudKind.hazy, 6.60, 18.37⟩,
   ⟨8, "Warm", 32.2, 15.0, 35, CloudKind.clear, 6.58, 18.38⟩,
   ⟨9, "Hot/Dry", 33.5, 16.2, 30, CloudKind.clear, 6.57, 18.40⟩]

/-- Profile selection of getAgraOfflineData: forecast[index] || forecast[0].
Indexing a 10-element JavaScript array outside 0..9 yields undefined, which
is falsy, so any out-of-range integer index falls back to the first row.
generateAgraForecast only attaches a display date to each row; the date is
supplied separately through the environment below. -/
def agraLookup (i : ℤ) : AgraDay :=
  if 0 ≤ i then (AGRA_BASE.get? i.toNat).getD AGRA_BASE.headI else AGRA_BASE.headI

/-- parseFloat(x.toFixed(1)) as exact arithmetic: round half up to one
decimal. -/
noncomputable def toFixed1 (x : ℝ) : ℝ :=
  ((Int.floor (x * 10 + 1 / 2) : ℤ) : ℝ) / 10

/-- parseFloat(x.toFixed(2)) as exact arithmetic: round half up to two
decimals. -/
noncomputable def toFixed2 (x : ℝ) : ℝ :=
  ((Int.floor (x * 100 + 1 / 2) : ℤ) : ℝ) / 100

/-- The hourly temperature of the offline synthesis (geminiService.ts lines
121-126): the half-cosine weight (1 - cos((h - 5) * 2 * pi / 24)) / 2 scaled
between the profile minimum and maximum, rounded to one decimal. -/
noncomputable def tempAt (mT MT : ℝ) (h : ℕ) : ℝ :=
  toFixed1 (mT + (MT - mT) * ((1 - Real.cos (((h : ℝ) - 5) * 2 * Real.pi / 24)) / 2))

/-- The hourly humidity of the offline synthesis (lines 128-132), computed
from the already rounded hourly temperature t and clamped to [10, 95]. -/
noncomputable def humidAt (p : AgraDay) (t : ℝ) : ℝ :=
  max 10 (min 95 (toFixed1 ((p.humidBase : ℝ) +
    30 * (1 - (t - (p.minT : ℝ)) / ((p.maxT : ℝ) - (p.minT : ℝ))))))

/-- The raw (pre-clamp, pre-rounding) hourly cloud value of the offline
synthesis (lines 134-145).  r stands for the value drawn from Math.random()
for this hour, a real in [0, 1). -/
noncomputable def cloudRaw (k : CloudKind) (h : ℕ) (r : ℝ) : ℝ :=
  match k with
  | CloudKind.clear => r * 5
  | CloudKind.hazy => 10 + r * 10
  | CloudKind.overcast => 70 + r * 20
  | CloudKind.buildup =>
    if 12 ≤ h ∧ h ≤ 18 then 40 * (1 - |(h : ℝ) - 15| / 4) + r * 15
    else r * 10

/-- The hourly cloud value of the offline synthesis: raw value rounded to one
decimal and clamped to [0, 100] (line 146). -/
noncomputable def cloudAt (k : CloudKind) (noise : ℕ → ℝ) (h : ℕ) : ℝ :=
  max 0 (min 100 (toFixed1 (cloudRaw k h (noise h))))

/-- A value thrown by JavaScript code: an Error object carrying a message, or
any non-Error value. -/
inductive JSThrown where
  | errObj (msg : String) : JSThrown
  | nonError : JSThrown
deriving DecidableEq

/-- The diagnostic string the catch block of fetchHourlyWeather attaches:
error instanceof Error ? error.message : "Fetch Failed". -/
def thrownMessage : JSThrown → String
  | JSThrown.errObj m => m
  | JSThrown.nonError => "Fetch Failed"

/-- Outcome of one HTTP round trip as seen by an adapter: the fetch promise
rejects, the response arrives with a non-ok status, res.json() rejects, or a
decoded payload is produced. -/
inductive HttpOutcome (α : Type) where
  | reject (e : JSThrown) : HttpOutcome α
  | notOk (statusText : String) : HttpOutcome α
  | jsonErr (e : JSThrown) : HttpOutcome α
  | ok (payload : α) : HttpOutcome α

/-- Decoded Open-Meteo payload: the hourly arrays (of arbitrary length, as
delivered) and the local hour/minute components of daily.sunrise[0] and
daily.sunset[0] as read back by Date getHours/getMinutes.  The type models a
decoded response that contains the accessed container fields; a response
missing data.hourly or data.daily would make the source throw a TypeError at
the property access, a failure path not represented by this type. -/
structure OpenMeteoPayload where
  temperature2m : List ℝ
  relativeHumidity2m : List ℝ
  cloudCover : List ℝ
  sunriseHM : ℕ × ℕ
  sunsetHM : ℕ × ℕ

/-- One entry of forecast.forecastday[0].hour in a WeatherAPI payload. -/
structure WapiHour where
  tempC : ℝ
  humidity : ℝ
  cloud : ℝ

/-- A 12-hour clock time string such as "06:34 AM", already split into its
hour, minute and period components (the split itself is plain string
plumbing and is not re-modelled). -/
structure TimeAmPm where
  hh : ℕ
  mm : ℕ
  period : String

/-- Decoded WeatherAPI payload: the per-hour objects (of arbitrary length, as
delivered), the astro sunrise/sunset time strings and the date part of
location.localtime.  The type models a decoded response that contains the
accessed container fields; a response without forecast.forecastday[0] would
make the source throw a TypeError at the property access, a failure path not
represented by this type. -/
structure WeatherApiPayload where
  hours : List WapiHour
  sunriseT : TimeAmPm
  sunsetT : TimeAmPm
  localtimeDate : String

/-- The ambient environment of one fetchHourlyWeather invocation: the
optional WEATHER_API_KEY, the outcome each provider call would produce, the
Math.random() sequence used by the offline synthesis (one draw per hour), and
the opaque display strings produced from the current date. -/
structure WeatherEnv where
  weatherKey : Option String
  keyedOutcome : HttpOutcome WeatherApiPayload
  keylessOutcome : HttpOutcome OpenMeteoPayload
  noise : ℕ → ℝ
  dateStr : String
  timeStr : String
  offsetDate : ℕ → String

/-- getHour of fetchFromOpenMeteo (lines 181-184): hours plus minutes over
sixty, to two decimals. -/
noncomputable def getHour (hm : ℕ × ℕ) : ℝ :=
  toFixed2 ((hm.1 : ℝ) + (hm.2 : ℝ) / 60)

/-- parseTimeStr of fetchFromWeatherAPI (lines 215-221): a PM hour other than
12 gains 12, a 12 AM hour becomes 0, then hours plus minutes over sixty to
two decimals.  Periods other than the exact strings compared by the source
leave the hour unchanged, as in the source. -/
noncomputable def parseTimeStr (t : TimeAmPm) : ℝ :=
  let h1 := if t.period = "PM" ∧ t.hh ≠ 12 then t.hh + 12 else t.hh
  let h2 := if t.period = "AM" ∧ h1 = 12 then 0 else h1
  toFixed2 ((h2 : ℝ) + (t.mm : ℝ) / 60)

/-- fetchFromOpenMeteo (lines 170-199).  A rejected fetch or res.json()
propagates the thrown value; a non-ok status throws an Error with the
OpenMeteo prefix; a decoded payload always succeeds, slicing each hourly
array to its first 24 entries with no length validation. -/
noncomputable def fetchFromOpenMeteo (env : WeatherEnv)
    (o : HttpOutcome OpenMeteoPayload) : Except JSThrown WeatherResponse :=
  match o with
  | HttpOutcome.reject e => Except.error e
  | HttpOutcome.notOk st => Except.error (JSThrown.errObj ("OpenMeteo Error: " ++ st))
  | HttpOutcome.jsonErr e => Except.error e
  | HttpOutcome.ok p =>
    Except.ok
      { hourlyTemp := p.temperature2m.take 24
        hourlyHumidity := p.relativeHumidity2m.take 24
        hourlyCloud := p.cloudCover.take 24
        sunriseHour := getHour p.sunriseHM
        sunsetHour := getHour p.sunsetHM
        meta :=
          { date := env.dateStr
            source := "Open-Meteo (Free/Live)"
            lastUpdated := env.timeStr
            isFallback := false }
        error := none }

/-- fetchFromWeatherAPI (lines 205-236).  A rejected fetch or res.json()
propagates the thrown value; a non-ok status throws an Error with the
WeatherAPI prefix; a decoded payload always succeeds, mapping every delivered
hour object with no length validation. -/
noncomputable def fetchFromWeatherAPI (env : WeatherEnv)
    (o : HttpOutcome WeatherApiPayload) : Except JSThrown WeatherResponse :=
  match o with
  | HttpOutcome.reject e => Except.error e
  | HttpOutcome.notOk st => Except.error (JSThrown.errObj ("WeatherAPI Error: " ++ st))
  | HttpOutcome.jsonErr e => Except.error e
  | HttpOutcome.ok p =>
    Except.ok
      { hourlyTemp := p.hours.map WapiHour.tempC
        hourlyHumidity := p.hours.map WapiHour.humidity
        hourlyCloud := p.hours.map WapiHour.cloud
        sunriseHour := parseTimeStr p.sunriseT
        sunsetHour := parseTimeStr p.sunsetT
        meta :=
          { date := p.localtimeDate
            source := "WeatherAPI.com (Live)"
            lastUpdated := env.timeStr
            isFallback := false }
        error := none }

/-- getAgraOfflineData (lines 117-162): select the profile for the requested
index (falling back to row 0), build the 24 hourly curves, and tag the
result as a fallback from the Agra offline database. -/
noncomputable def getAgraOfflineData (env : WeatherEnv) (i : ℤ) : WeatherResponse :=
  let p := agraLookup i
  let temps := (List.range 24).map (tempAt (p.minT : ℝ) (p.maxT : ℝ))
  { hourlyTemp := temps
    hourlyHumidity := temps.map (humidAt p)
    hourlyCloud := (List.range 24).map (cloudAt p.cloudProfile env.noise)
    sunriseHour := (p.sunR : ℝ)
    sunsetHour := (p.sunS : ℝ)
    meta :=
      { date := env.offsetDate p.dayOffset
        source := "Agra Offline Database (Baseline)"
        lastUpdated := env.timeStr
        isFallback := true }
    error := none }

/-- The body of the try block of fetchHourlyWeather (lines 248-256): the
keyed provider when the credential is truthy, the keyless provider
otherwise.  An error value is a throw escaping the try block. -/
noncomputable def liveOutcome (env : WeatherEnv) : Except JSThrown WeatherResponse :=
  if isTruthyKey env.weatherKey then fetchFromWeatherAPI env env.keyedOutcome
  else fetchFromOpenMeteo env env.keylessOutcome

/-- fetchHourlyWeather (lines 245-267): the try-block result when no throw
occurs, otherwise the catch block spreads getAgraOfflineData(0) and attaches
the caught error message. -/
noncomputable def fetchHourlyWeather (env : WeatherEnv) : WeatherResponse :=
  match liveOutcome env with
  | Except.ok r => r
  | Except.error e =>
    { getAgraOfflineData env 0 with error := some (thrownMessage e) }

/-- Projection used to state facts about a successful adapter result without
binders: the three hourly array lengths, none on a failed attempt. -/
noncomputable def okArrayLengths :
    Except JSThrown WeatherResponse → Option (ℕ × ℕ × ℕ)
  | Except.ok r => some (r.hourlyTemp.length, r.hourlyHumidity.length, r.hourlyCloud.length)
  | Except.error _ => none

/-- Projection of the isFallback flag of a successful adapter result. -/
noncomputable def okIsFallback : Except JSThrown WeatherResponse → Option Bool
  | Except.ok r => some r.meta.isFallback
  | Except.error _ => none

/-- Projection of the source string of a successful adapter result. -/
noncomputable def okSource : Except JSThrown WeatherResponse → Option String
  | Except.ok r => some r.meta.source
  | Except.error _ => none

/-- A keyless environment whose Open-Meteo call produces the given outcome;
the display strings and the noise source are fixed arbitrarily. -/
noncomputable def envKeyless (kl : HttpOutcome OpenMeteoPayload) : WeatherEnv :=
  { weatherKey := none
    keyedOutcome := HttpOutcome.reject JSThrown.nonError
    keylessOutcome := kl
    noise := fun _ => 0
    dateStr := "today"
    timeStr := "now"
    offsetDate := fun _ => "today" }

/-- A well-formed 24-hour Open-Meteo payload. -/
noncomputable def om24 : OpenMeteoPayload :=
  { temperature2m := List.replicate 24 20
    relativeHumidity2m := List.replicate 24 50
    cloudCover := List.replicate 24 10
    sunriseHM := (6, 43)
    sunsetHM := (18, 52) }

/-- A malformed Open-Meteo payload: one-element hourly arrays, an
out-of-range humidity value, and a sunset earlier than the sunrise. -/
noncomputable def omShort : OpenMeteoPayload :=
  { temperature2m := [20]
    relativeHumidity2m := [200]
    cloudCover := [150]
    sunriseHM := (7, 0)
    sunsetHM := (6, 0) }

/-- An Open-Meteo payload whose hourly arrays have twelve entries. -/
noncomputable def om12 : OpenMeteoPayload :=
  { temperature2m := List.replicate 12 20
    relativeHumidity2m := List.replicate 12 50
    cloudCover := List.replicate 12 10
    sunriseHM := (6, 43)
    sunsetHM := (18, 52) }

/-- A WeatherAPI payload with twelve hour entries. -/
noncomputable def wa12 : WeatherApiPayload :=
  { hours := List.replicate 12 ⟨25, 50, 0⟩
    sunriseT := ⟨6, 43, "AM"⟩
    sunsetT := ⟨6, 52, "PM"⟩
    localtimeDate := "2026-02-20" }

/-- Environment for the C1 counterexample: no credential, and the keyless
fetch rejects with an Error whose message is the empty string. -/
noncomputable def envEmptyMsg : WeatherEnv :=
  envKeyless (HttpOutcome.reject (JSThrown.errObj ("")))

/-- Environment for the C2 counterexample: a configured credential, a failing
keyed attempt, and a keyless provider that would succeed. -/
noncomputable def envC2 : WeatherEnv :=
  { weatherKey := some ("secret")
    keyedOutcome := HttpOutcome.reject (JSThrown.errObj ("keyed provider down"))
    keylessOutcome := HttpOutcome.ok om24
    noise := fun _ => 0
    dateStr := "today"
    timeStr := "now"
    offsetDate := fun _ => "today" }

/-- Environment for the C3 counterexample: no credential and a keyless
success carrying the malformed payload. -/
noncomputable def envC3 : WeatherEnv :=
  envKeyless (HttpOutcome.ok omShort)

/-- Environment whose keyless fetch rejects with a non-empty message. -/
noncomputable def envBoom : WeatherEnv :=
  envKeyless (HttpOutcome.reject (JSThrown.errObj ("network down")))

/-- Environment with the constant noise value one half, used to witness the
noise-band hypotheses of the synthesis theorems. -/
noncomputable def envHalf : WeatherEnv :=
  { weatherKey := none
    keyedOutcome := HttpOutcome.reject JSThrown.nonError
    keylessOutcome := HttpOutcome.reject JSThrown.nonError
    noise := fun _ => 1 / 2
    dateStr := "today"
    timeStr := "now"
    offsetDate := fun _ => "today" }

/- Helper lemmas about the padding loop of normalizeArray. -/

/-- The value pushed by the padding loop is never nullish: it is either the
fill value wrapped as a number or a non-nullish last element. -/
theorem isNullish_nextPush (l : List JSVal) (fill : ℚ) :
    isNullish (nextPush l fill) = false := by
  unfold nextPush
  cases hg : l.getLast? with
  | none => rfl
  | some v => cases v <;> rfl

/-- Unfolding nextPush when the list has a last element. -/
theorem nextPush_of_getLast (l : List JSVal) (fill : ℚ) (x : JSVal)
    (h : l.getLast? = some x) :
    nextPush l fill = if isNullish x then JSVal.num (JSNum.fin fill) else x := by
  unfold nextPush
  rw [h]

/-- Appending the pushed value does not change the value pushed next: the
loop keeps repeating one value. -/
theorem nextPush_concat (l : List JSVal) (fill : ℚ) :
    nextPush (l ++ [nextPush l fill]) fill = nextPush l fill := by
  rw [nextPush_of_getLast _ _ _ (List.getLast?_concat l), isNullish_nextPush]
  simp

/-- With enough fuel, the padding loop pads a short list with copies of the
initially pushed value up to length 24 and leaves longer lists unchanged. -/
theorem padGo_eq (n : ℕ) : ∀ (l : List JSVal) (fill : ℚ), 24 ≤ l.length + n →
    padGo n l fill =
      if l.length < 24 then l ++ List.replicate (24 - l.length) (nextPush l fill)
      else l := by
  induction n with
  | zero =>
    intro l fill h
    have h24 : ¬ l.length < 24 := by omega
    simp [padGo, h24]
  | succ n ih =>
    intro l fill h
    by_cases hl : l.length < 24
    · have hstep : padGo (n + 1) l fill = padGo n (l ++ [nextPush l fill]) fill := by
        simp [padGo, hl]
      have hlen : (l ++ [nextPush l fill]).length = l.length + 1 := by simp
      rw [hstep, ih _ fill (by omega), if_pos hl]
      by_cases h2 : (l ++ [nextPush l fill]).length < 24
      · rw [if_pos h2, nextPush_concat, hlen]
        have hsplit : 24 - l.length = (24 - (l.length + 1)) + 1 := by omega
        rw [hsplit, List.replicate_succ]
        simp
      · rw [if_neg h2]
        have hone : 24 - l.length = 1 := by
          rw [hlen] at h2
          omega
        rw [hone]
        simp
    · simp [padGo, hl]

/-- normalizeArray on a short array: pad with the loop value, then coerce. -/
theorem normalizeArray_of_short (l : List JSVal) (fill : ℚ) (h : l.length < 24) :
    normalizeArray (some l) fill =
      (l ++ List.replicate (24 - l.length) (nextPush l fill)).map (coerceElem fill) := by
  have hdef : normalizeArray (some l) fill =
      ((padGo 24 l fill).take 24).map (coerceElem fill) := rfl
  rw [hdef, padGo_eq 24 l fill (by omega), if_pos h]
  congr 1
  apply List.take_of_length_le
  simp
  omega

/-- normalizeArray on a long array: truncate to 24, then coerce. -/
theorem normalizeArray_of_long (l : List JSVal) (fill : ℚ) (h : 24 ≤ l.length) :
    normalizeArray (some l) fill = (l.take 24).map (coerceElem fill) := by
  have hdef : normalizeArray (some l) fill =
      ((padGo 24 l fill).take 24).map (coerceElem fill) := rfl
  rw [hdef, padGo_eq 24 l fill (by omega), if_neg (by omega)]

/-- normalizeArray always returns exactly 24 elements. -/
theorem normalizeArray_length (o : Option (List JSVal)) (fill : ℚ) :
    (normalizeArray o fill).length = 24 := by
  cases o with
  | none => simp [normalizeArray]
  | some l =>
    by_cases h : l.length < 24
    · rw [normalizeArray_of_short l fill h]
      simp
      omega
    · rw [normalizeArray_of_long l fill (by omega)]
      simp
      omega

/-- C6 (amended): normalize is total and always returns exactly 24 elements;
a non-array input yields 24 copies of the fill value; an input shorter than
24 is padded with the value of the expression last ?? fillValue, that is, by
repeating its last element when that element is neither null nor undefined
and with the fill value when the input is empty or ends in null/undefined; an
input of length 24 or more keeps only its first 24 elements; in particular
normalize([7, 9], 0) is [7, 9, 9, ...] of length 24. -/
theorem c6_normalize_shape :
    (∀ (o : Option (List JSVal)) (fill : ℚ), (normalizeArray o fill).length = 24) ∧
    (∀ fill : ℚ, normalizeArray none fill = List.replicate 24 (JSNum.fin fill)) ∧
    (∀ (l : List JSVal) (fill : ℚ), l.length < 24 →
      normalizeArray (some l) fill =
        (l ++ List.replicate (24 - l.length) (nextPush l fill)).map (coerceElem fill)) ∧
    (∀ (l : List JSVal) (fill : ℚ), 24 ≤ l.length →
      normalizeArray (some l) fill = (l.take 24).map (coerceElem fill)) ∧
    normalizeArray (some [JSVal.num (JSNum.fin 7), JSVal.num (JSNum.fin 9)]) 0 =
      [JSNum.fin 7, JSNum.fin 9] ++ List.replicate 22 (JSNum.fin 9) :=
  ⟨normalizeArray_length, fun _ => rfl, normalizeArray_of_short,
   normalizeArray_of_long, by decide⟩

/-- C6 witness: the padding characterisation applied to the concrete
two-element input of the example in the claim. -/
theorem c6_witness :
    ([JSVal.num (JSNum.fin 7), JSVal.num (JSNum.fin 9)] : List JSVal).length < 24 ∧
    normalizeArray (some [JSVal.num (JSNum.fin 7), JSVal.num (JSNum.fin 9)]) 0 =
      ([JSVal.num (JSNum.fin 7), JSVal.num (JSNum.fin 9)] ++
        List.replicate 22
          (nextPush [JSVal.num (JSNum.fin 7), JSVal.num (JSNum.fin 9)] 0)).map
        (coerceElem 0) :=
  ⟨by decide, c6_normalize_shape.2.2.1 _ 0 (by decide)⟩

/-- C6 counterexample: for the input [null] with fill value 5 the claimed
padding rule (repeat the last present element, fill only when empty) predicts
the coercion of 24 copies of null, i.e. 24 zeros, but the code pads with the
fill value because null ?? fillValue selects the fill value, producing one
zero followed by 23 fives. -/
theorem c6_counterexample :
    normalizeArray (some [JSVal.null]) 5 ≠
      ([JSVal.null] ++ List.replicate (24 - 1) JSVal.null).map (coerceElem 5) ∧
    normalizeArray (some [JSVal.null]) 5 =
      JSNum.fin 0 :: List.replicate 23 (JSNum.fin 5) := by
  constructor
  · decide
  · decide

/-- C7 (amended): on a kept (length-24) input, normalize maps each element
through the Number() coercion, replacing exactly the elements whose coercion
is NaN by the fill value and keeping every other coercion result unchanged —
including the 0 that null coerces to and the non-finite infinities; in
particular normalize(["x", 4, null], 2) is [2, 4, 0, 2, 2, ...] of length 24
(the null element becomes 0, not the fill value 2). -/
theorem c7_coercion :
    (∀ (l : List JSVal) (fill : ℚ), l.length = 24 →
      normalizeArray (some l) fill = l.map (coerceElem fill)) ∧
    normalizeArray (some [JSVal.str ("x"), JSVal.num (JSNum.fin 4), JSVal.null]) 2 =
      [JSNum.fin 2, JSNum.fin 4, JSNum.fin 0] ++ List.replicate 21 (JSNum.fin 2) ∧
    normalizeArray (some (List.replicate 24 (JSVal.num (JSNum.inf true)))) 2 =
      List.replicate 24 (JSNum.inf true) := by
  refine ⟨?_, by decide, by decide⟩
  intro l fill h
  rw [normalizeArray_of_long l fill (by omega)]
  congr 1
  exact List.take_of_length_le (by omega)

/-- C7 witness: the coercion characterisation applied to a concrete
length-24 input. -/
theorem c7_witness :
    (List.replicate 24 JSVal.null).length = 24 ∧
    normalizeArray (some (List.replicate 24 JSVal.null)) 7 =
      (List.replicate 24 JSVal.null).map (coerceElem 7) :=
  ⟨by decide, c7_coercion.1 _ 7 (by decide)⟩

/-- C7 counterexample: normalize(["x", 4, null], 2) is not the claimed
[2, 4, 2, 2, ...]: the null element coerces to the finite number 0 and is
kept, so the code returns [2, 4, 0, 2, 2, ...]. -/
theorem c7_counterexample :
    normalizeArray (some [JSVal.str ("x"), JSVal.num (JSNum.fin 4), JSVal.null]) 2 ≠
      JSNum.fin 2 :: JSNum.fin 4 :: List.replicate 22 (JSNum.fin 2) ∧
    normalizeArray (some [JSVal.str ("x"), JSVal.num (JSNum.fin 4), JSVal.null]) 2 =
      [JSNum.fin 2, JSNum.fin 4, JSNum.fin 0] ++ List.replicate 21 (JSNum.fin 2) := by
  constructor
  · decide
  · decide

/-- C8: parseWeatherGraph never propagates an error.  With a falsy credential
it returns the fallback profile; every caught failure (a throw, an empty
response, unparsable JSON) returns the fallback profile; with a truthy
credential and a decoded object it normalizes the three extracted fields with
the per-field fill constants 25, 50 and 0; and the fallback profile is
exactly 24 copies each of temperature 25, humidity 50 and cloud 0. -/
theorem c8_extraction_fallback :
    (∀ o : VisionOutcome, parseWeatherGraph none o = createFallbackProfile) ∧
    (∀ key : Option String,
      parseWeatherGraph key VisionOutcome.thrown = createFallbackProfile ∧
      parseWeatherGraph key VisionOutcome.noText = createFallbackProfile ∧
      parseWeatherGraph key VisionOutcome.badJson = createFallbackProfile) ∧
    (∀ (key : Option String) (t h c : Option (List JSVal)),
      isTruthyKey key = true →
      parseWeatherGraph key (VisionOutcome.parsed t h c) =
        { hourlyTemp := normalizeArray t 25
          hourlyHumidity := normalizeArray h 50
          hourlyCloud := normalizeArray c 0 }) ∧
    createFallbackProfile =
      { hourlyTemp := List.replicate 24 (JSNum.fin 25)
        hourlyHumidity := List.replicate 24 (JSNum.fin 50)
        hourlyCloud := List.replicate 24 (JSNum.fin 0) } := by
  refine ⟨fun o => rfl, fun key => ?_, fun key t h c hk => ?_, rfl⟩
  · refine ⟨?_, ?_, ?_⟩ <;>
      · cases hk : isTruthyKey key <;> simp [parseWeatherGraph, hk]
  · simp [parseWeatherGraph, hk]

/-- C8 witness: the success clause applied at a present credential and a
decoded object whose fields are all non-arrays. -/
theorem c8_witness :
    isTruthyKey (some ("k")) = true ∧
    parseWeatherGraph (some ("k")) (VisionOutcome.parsed none none none) =
      { hourlyTemp := normalizeArray none 25
        hourlyHumidity := normalizeArray none 50
        hourlyCloud := normalizeArray none 0 } :=
  ⟨by decide, c8_extraction_fallback.2.2.1 _ none none none (by decide)⟩

/- Helper lemmas about the exact model of toFixed rounding. -/

/-- Round-half-up to one decimal never exceeds the argument by more than one
twentieth. -/
theorem toFixed1_le (x : ℝ) : toFixed1 x ≤ x + 1 / 20 := by
  unfold toFixed1
  have h := Int.floor_le (x * 10 + 1 / 2)
  linarith

/-- Round-half-up to one decimal never falls a twentieth or more below the
argument. -/
theorem lt_toFixed1 (x : ℝ) : x - 1 / 20 < toFixed1 x := by
  unfold toFixed1
  have h := Int.lt_floor_add_one (x * 10 + 1 / 2)
  linarith

/-- Rounding to one decimal is monotone. -/
theorem toFixed1_mono {x y : ℝ} (h : x ≤ y) : toFixed1 x ≤ toFixed1 y := by
  unfold toFixed1
  have hf : Int.floor (x * 10 + 1 / 2) ≤ Int.floor (y * 10 + 1 / 2) :=
    Int.floor_mono (by linarith)
  have hc : ((Int.floor (x * 10 + 1 / 2) : ℤ) : ℝ) ≤
      ((Int.floor (y * 10 + 1 / 2) : ℤ) : ℝ) := by exact_mod_cast hf
  linarith

/-- An exact multiple of one tenth is a fixed point of rounding to one
decimal. -/
theorem toFixed1_intTenth (k : ℤ) : toFixed1 ((k : ℝ) / 10) = (k : ℝ) / 10 := by
  unfold toFixed1
  have harg : (k : ℝ) / 10 * 10 + 1 / 2 = (k : ℝ) + 1 / 2 := by ring
  have hhalf : Int.floor ((1 : ℝ) / 2) = 0 := by
    rw [Int.floor_eq_iff]
    exact ⟨by norm_num, by norm_num⟩
  rw [harg, Int.floor_int_add, hhalf]
  norm_num

/-- Evaluation rule for rounding to two decimals: if the scaled value lies in
[k, k + 1) the result is k hundredths. -/
theorem toFixed2_eq (x : ℝ) (k : ℤ) (h1 : (k : ℝ) ≤ x * 100 + 1 / 2)
    (h2 : x * 100 + 1 / 2 < (k : ℝ) + 1) : toFixed2 x = (k : ℝ) / 100 := by
  unfold toFixed2
  have : Int.floor (x * 100 + 1 / 2) = k := by
    rw [Int.floor_eq_iff]
    · exact ⟨h1, h2⟩
  rw [this]

/-- Evaluation rule for rounding to one decimal: if the scaled value lies in
[k, k + 1) the result is k tenths. -/
theorem toFixed1_eq (x : ℝ) (k : ℤ) (h1 : (k : ℝ) ≤ x * 10 + 1 / 2)
    (h2 : x * 10 + 1 / 2 < (k : ℝ) + 1) : toFixed1 x = (k : ℝ) / 10 := by
  unfold toFixed1
  have : Int.floor (x * 10 + 1 / 2) = k := by
    rw [Int.floor_eq_iff]
    · exact ⟨h1, h2⟩
  rw [this]

/- Helper lemmas about the climate table. -/

/-- A rational that is an integer multiple of one tenth is one in the reals
as well. -/
theorem tenth_cast (q : ℚ) (h : ∃ k : ℤ, q = (k : ℚ) / 10) :
    ∃ k : ℤ, (q : ℝ) = (k : ℝ) / 10 := by
  obtain ⟨k, hk⟩ := h
  refine ⟨k, ?_⟩
  rw [hk]
  push_cast
  ring

/-- Every row selected from the climate table is a row of AGRA_BASE. -/
theorem agraLookup_mem (i : ℤ) : agraLookup i ∈ AGRA_BASE := by
  have hhead : AGRA_BASE.headI ∈ AGRA_BASE := by
    unfold AGRA_BASE
    exact List.mem_cons_self _ _
  unfold agraLookup
  by_cases h : 0 ≤ i
  · rw [if_pos h]
    cases hg : AGRA_BASE.get? i.toNat with
    | none => simpa using hhead
    | some d =>
      rw [Option.getD_some]
      exact List.get?_mem hg
  · rw [if_neg h]
    exact hhead

/-- The facts about every row of the climate table that the synthesis
invariants rest on: the minimum temperature is at most the maximum, both are
exact integer multiples of one tenth, and sunrise is before sunset. -/
theorem agra_profile_props :
    ∀ d ∈ AGRA_BASE, d.minT ≤ d.maxT ∧ (∃ k : ℤ, d.minT = (k : ℚ) / 10) ∧
      (∃ k : ℤ, d.maxT = (k : ℚ) / 10) ∧ d.sunR < d.sunS := by
  intro d hd
  unfold AGRA_BASE at hd
  fin_cases hd
  · exact ⟨by norm_num, ⟨124, by norm_num⟩, ⟨285, by norm_num⟩, by norm_num⟩
  · exact ⟨by norm_num, ⟨131, by norm_num⟩, ⟨291, by norm_num⟩, by norm_num⟩
  · exact ⟨by norm_num, ⟨135, by norm_num⟩, ⟨302, by norm_num⟩, by norm_num⟩
  · exact ⟨by norm_num, ⟨142, by norm_num⟩, ⟨278, by norm_num⟩, by norm_num⟩
  · exact ⟨by norm_num, ⟨151, by norm_num⟩, ⟨265, by norm_num⟩, by norm_num⟩
  · exact ⟨by norm_num, ⟨130, by norm_num⟩, ⟨280, by norm_num⟩, by norm_num⟩
  · exact ⟨by norm_num, ⟨138, by norm_num⟩, ⟨295, by norm_num⟩, by norm_num⟩
  · exact ⟨by norm_num, ⟨145, by norm_num⟩, ⟨310, by norm_num⟩, by norm_num⟩
  · exact ⟨by norm_num, ⟨150, by norm_num⟩, ⟨322, by norm_num⟩, by norm_num⟩
  · exact ⟨by norm_num, ⟨162, by norm_num⟩, ⟨335, by norm_num⟩, by norm_num⟩

/-- The half-cosine weight of the temperature curve keeps every hourly
temperature between the profile minimum and maximum, before and hence also
after rounding (both bounds being exact tenths). -/
theorem tempAt_bounds (mT MT : ℝ) (h : ℕ) (hle : mT ≤ MT)
    (hm : ∃ k : ℤ, mT = (k : ℝ) / 10) (hM : ∃ k : ℤ, MT = (k : ℝ) / 10) :
    mT ≤ tempAt mT MT h ∧ tempAt mT MT h ≤ MT := by
  obtain ⟨a, ha⟩ := hm
  obtain ⟨b, hb⟩ := hM
  unfold tempAt
  have hc1 : -1 ≤ Real.cos (((h : ℝ) - 5) * 2 * Real.pi / 24) :=
    Real.neg_one_le_cos _
  have hc2 : Real.cos (((h : ℝ) - 5) * 2 * Real.pi / 24) ≤ 1 :=
    Real.cos_le_one _
  have hmid1 : mT ≤ mT + (MT - mT) *
      ((1 - Real.cos (((h : ℝ) - 5) * 2 * Real.pi / 24)) / 2) := by nlinarith
  have hmid2 : mT + (MT - mT) *
      ((1 - Real.cos (((h : ℝ) - 5) * 2 * Real.pi / 24)) / 2) ≤ MT := by nlinarith
  constructor
  · have := toFixed1_mono hmid1
    rw [ha, toFixed1_intTenth] at this
    rw [ha]
    exact this
  · have := toFixed1_mono hmid2
    rw [hb, toFixed1_intTenth] at this
    rw [hb]
    exact this

/-- On a failed live attempt, fetchHourlyWeather is the offline synthesis for
index 0 with the caught message attached. -/
theorem fetchHourlyWeather_of_error (env : WeatherEnv) (e : JSThrown)
    (hfail : liveOutcome env = Except.error e) :
    fetchHourlyWeather env =
      { getAgraOfflineData env 0 with error := some (thrownMessage e) } := by
  unfold fetchHourlyWeather
  rw [hfail]

/-- C1 (amended): fetchHourlyWeather is total by construction, and whenever
the live attempt of the try block fails it returns the offline synthesis
result for dayOffset 0, with meta.isFallback true, the offline-database
source string, and an error field equal to the message of the caught Error
(or the fixed string Fetch Failed for a non-Error throw) — a field that is
non-empty whenever that message is non-empty, though an Error whose message
is the empty string yields an empty error field. -/
theorem c1_total_fallback (env : WeatherEnv) (e : JSThrown)
    (hfail : liveOutcome env = Except.error e) :
    fetchHourlyWeather env =
      { getAgraOfflineData env 0 with error := some (thrownMessage e) } ∧
    (fetchHourlyWeather env).meta.isFallback = true ∧
    (fetchHourlyWeather env).meta.source = "Agra Offline Database (Baseline)" ∧
    (fetchHourlyWeather env).error = some (thrownMessage e) ∧
    (thrownMessage e ≠ "" → (fetchHourlyWeather env).error ≠ some ("")) ∧
    (e = JSThrown.nonError → (fetchHourlyWeather env).error = some ("Fetch Failed")) := by
  have h1 := fetchHourlyWeather_of_error env e hfail
  rw [h1]
  refine ⟨rfl, rfl, rfl, rfl, ?_, ?_⟩
  · intro hne hcontra
    simp only [getAgraOfflineData] at hcontra
    exact hne (by injection hcontra)
  · intro he
    rw [he]
    rfl

/-- C1 witness: a keyless environment whose fetch rejects with the message
network down. -/
theorem c1_witness :
    liveOutcome envBoom = Except.error (JSThrown.errObj ("network down")) ∧
    (fetchHourlyWeather envBoom).meta.isFallback = true ∧
    (fetchHourlyWeather envBoom).error = some ("network down") := by
  have hfail : liveOutcome envBoom = Except.error (JSThrown.errObj ("network down")) := rfl
  have h := c1_total_fallback envBoom (JSThrown.errObj ("network down")) hfail
  exact ⟨hfail, h.2.1, h.2.2.2.1⟩

/-- C1 counterexample: when the keyless provider rejects with an Error whose
message is the empty string, the result is a fallback whose error field is
the empty string — present but empty, contradicting the claimed non-empty
error field. -/
theorem c1_counterexample :
    liveOutcome envEmptyMsg = Except.error (JSThrown.errObj ("")) ∧
    (fetchHourlyWeather envEmptyMsg).meta.isFallback = true ∧
    (fetchHourlyWeather envEmptyMsg).error = some ("") := by
  exact ⟨rfl, rfl, rfl⟩

/-- Whether a WeatherAPI attempt fails does not depend on the ambient
environment: the environment only decorates a successful result. -/
theorem fetchFromWeatherAPI_error_stable (env1 env2 : WeatherEnv)
    (o : HttpOutcome WeatherApiPayload) (e : JSThrown)
    (h : fetchFromWeatherAPI env1 o = Except.error e) :
    fetchFromWeatherAPI env2 o = Except.error e := by
  cases o with
  | reject e2 => exact h
  | notOk st => exact h
  | jsonErr e2 => exact h
  | ok p => simp [fetchFromWeatherAPI] at h

/-- C2 (amended): when the keyed credential is configured and the keyed
attempt fails, fetchHourlyWeather falls back directly to the offline
synthesis without ever attempting the keyless provider: the result is the
synthesis result carrying the keyed error message, and it is unchanged under
any replacement of the keyless provider outcome. -/
theorem c2_keyed_failure_synthesizes (env : WeatherEnv) (e : JSThrown)
    (hkey : isTruthyKey env.weatherKey = true)
    (hfail : fetchFromWeatherAPI env env.keyedOutcome = Except.error e) :
    fetchHourlyWeather env =
      { getAgraOfflineData env 0 with error := some (thrownMessage e) } ∧
    (∀ alt : HttpOutcome OpenMeteoPayload,
      fetchHourlyWeather { env with keylessOutcome := alt } = fetchHourlyWeather env) := by
  have hl : liveOutcome env = Except.error e := by
    unfold liveOutcome
    rw [if_pos hkey, hfail]
  constructor
  · unfold fetchHourlyWeather
    rw [hl]
  · intro alt
    have hl2 : liveOutcome { env with keylessOutcome := alt } = Except.error e := by
      unfold liveOutcome
      rw [if_pos hkey]
      exact fetchFromWeatherAPI_error_stable env _ env.keyedOutcome e hfail
    unfold fetchHourlyWeather
    rw [hl, hl2]
    rfl

/-- C2 witness: a concrete environment with a configured credential and a
failing keyed attempt, with the keyless outcome swapped for a rejection. -/
theorem c2_witness :
    isTruthyKey envC2.weatherKey = true ∧
    fetchFromWeatherAPI envC2 envC2.keyedOutcome =
      Except.error (JSThrown.errObj ("keyed provider down")) ∧
    fetchHourlyWeather envC2 =
      { getAgraOfflineData envC2 0 with error := some ("keyed provider down") } ∧
    fetchHourlyWeather { envC2 with keylessOutcome := HttpOutcome.reject JSThrown.nonError } =
      fetchHourlyWeather envC2 := by
  have h := c2_keyed_failure_synthesizes envC2 (JSThrown.errObj ("keyed provider down")) rfl rfl
  exact ⟨rfl, rfl, h.1, h.2 (HttpOutcome.reject JSThrown.nonError)⟩

/-- C2 counterexample: in envC2 the credential is configured, the keyed
attempt fails, and the keyless provider would succeed with a live (non
fallback) Open-Meteo observation — yet fetchHourlyWeather returns the offline
fallback, so the keyless provider is skipped rather than attempted next. -/
theorem c2_counterexample :
    isTruthyKey envC2.weatherKey = true ∧
    fetchFromWeatherAPI envC2 envC2.keyedOutcome =
      Except.error (JSThrown.errObj ("keyed provider down")) ∧
    okIsFallback (fetchFromOpenMeteo envC2 envC2.keylessOutcome) = some false ∧
    okSource (fetchFromOpenMeteo envC2 envC2.keylessOutcome) =
      some ("Open-Meteo (Free/Live)") ∧
    (fetchHourlyWeather envC2).meta.isFallback = true ∧
    (fetchHourlyWeather envC2).meta.source = "Agra Offline Database (Baseline)" := by
  exact ⟨rfl, rfl, rfl, rfl, rfl, rfl⟩

/-- Synthesized humidity is clamped into [10, 95] whatever the inputs. -/
theorem humidAt_bounds (p : AgraDay) (t : ℝ) :
    10 ≤ humidAt p t ∧ humidAt p t ≤ 95 :=
  ⟨le_max_left _ _, max_le (by norm_num) (min_le_left _ _)⟩

/-- Synthesized cloud cover is clamped into [0, 100] whatever the noise. -/
theorem cloudAt_bounds (k : CloudKind) (noise : ℕ → ℝ) (h : ℕ) :
    0 ≤ cloudAt k noise h ∧ cloudAt k noise h ≤ 100 :=
  ⟨le_max_left _ _, max_le (by norm_num) (min_le_left _ _)⟩

/-- C3 (amended): every fallback result of fetchHourlyWeather — every result
produced when the live attempt fails — satisfies the canonical invariants:
the three hourly arrays have length exactly 24, sunrise is before sunset,
every humidity value lies in [10, 95] and every cloud value lies in [0, 100].
Live results are passed through unvalidated, so for them the invariants hold
only when the upstream payload satisfies them (see the counterexample). -/
theorem c3_fallback_invariants (env : WeatherEnv) (e : JSThrown)
    (hfail : liveOutcome env = Except.error e) :
    (fetchHourlyWeather env).hourlyTemp.length = 24 ∧
    (fetchHourlyWeather env).hourlyHumidity.length = 24 ∧
    (fetchHourlyWeather env).hourlyCloud.length = 24 ∧
    (fetchHourlyWeather env).sunriseHour < (fetchHourlyWeather env).sunsetHour ∧
    (∀ x ∈ (fetchHourlyWeather env).hourlyHumidity, 10 ≤ x ∧ x ≤ 95) ∧
    (∀ x ∈ (fetchHourlyWeather env).hourlyCloud, 0 ≤ x ∧ x ≤ 100) := by
  have h1 := fetchHourlyWeather_of_error env e hfail
  rw [h1]
  refine ⟨?_, ?_, ?_, ?_, ?_, ?_⟩
  · show ((List.range 24).map
      (tempAt ((agraLookup 0).minT : ℝ) ((agraLookup 0).maxT : ℝ))).length = 24
    simp
  · show (((List.range 24).map
      (tempAt ((agraLookup 0).minT : ℝ) ((agraLookup 0).maxT : ℝ))).map
        (humidAt (agraLookup 0))).length = 24
    simp
  · show ((List.range 24).map
      (cloudAt (agraLookup 0).cloudProfile env.noise)).length = 24
    simp
  · show (((agraLookup 0).sunR : ℚ) : ℝ) < (((agraLookup 0).sunS : ℚ) : ℝ)
    exact_mod_cast (agra_profile_props _ (agraLookup_mem 0)).2.2.2
  · intro x hx
    have hx2 : x ∈ ((List.range 24).map
        (tempAt ((agraLookup 0).minT : ℝ) ((agraLookup 0).maxT : ℝ))).map
          (humidAt (agraLookup 0)) := hx
    rw [List.mem_map] at hx2
    obtain ⟨t, _, rfl⟩ := hx2
    exact humidAt_bounds _ t
  · intro x hx
    have hx2 : x ∈ (List.range 24).map
        (cloudAt (agraLookup 0).cloudProfile env.noise) := hx
    rw [List.mem_map] at hx2
    obtain ⟨h, _, rfl⟩ := hx2
    exact cloudAt_bounds _ _ h

/-- C3 witness: the invariants of the fallback result of a failing keyless
environment, evaluated down to the first humidity element. -/
theorem c3_witness :
    liveOutcome envBoom = Except.error (JSThrown.errObj ("network down")) ∧
    (fetchHourlyWeather envBoom).hourlyTemp.length = 24 ∧
    (fetchHourlyWeather envBoom).sunriseHour < (fetchHourlyWeather envBoom).sunsetHour := by
  have h := c3_fallback_invariants envBoom (JSThrown.errObj ("network down")) rfl
  exact ⟨rfl, h.1, h.2.2.2.1⟩

/-- C3 counterexample: with no credential and a keyless success whose decoded
payload has one-element hourly arrays, humidity 200 and a sunset before the
sunrise, fetchHourlyWeather returns that data unchanged: a live result with a
one-element temperature array, sunrise not before sunset, and a humidity
array whose only element is 200, violating every claimed invariant. -/
theorem c3_counterexample :
    (fetchHourlyWeather envC3).hourlyTemp.length = 1 ∧
    ¬ (fetchHourlyWeather envC3).sunriseHour < (fetchHourlyWeather envC3).sunsetHour ∧
    (fetchHourlyWeather envC3).hourlyHumidity = [(200 : ℝ)] ∧
    ¬ ((200 : ℝ) ≤ 95) := by
  have hsr : (fetchHourlyWeather envC3).sunriseHour = getHour (7, 0) := rfl
  have hss : (fetchHourlyWeather envC3).sunsetHour = getHour (6, 0) := rfl
  have h7 : getHour (7, 0) = ((700 : ℤ) : ℝ) / 100 := by
    unfold getHour
    apply toFixed2_eq <;> push_cast <;> norm_num
  have h6 : getHour (6, 0) = ((600 : ℤ) : ℝ) / 100 := by
    unfold getHour
    apply toFixed2_eq <;> push_cast <;> norm_num
  refine ⟨rfl, ?_, rfl, by norm_num⟩
  rw [hsr, hss, h7, h6]
  norm_num

/-- C4 (amended): neither live adapter validates the length of the decoded
hourly arrays: on every decoded payload containing the accessed fields (the
payloads the types above model) both adapters succeed — no SchemaError — with
the keyless Open-Meteo adapter truncating each array to at most its first 24
entries and the keyed WeatherAPI adapter mapping every delivered hour object,
so a wrong-length payload is silently coerced, never rejected.  A decoded
payload missing data.hourly, data.daily or forecast.forecastday[0] instead
throws a TypeError at the property access itself; that distinct failure path
lies outside the typed payload model and is not characterised here. -/
theorem c4_adapters_accept_any_length (env : WeatherEnv)
    (p : OpenMeteoPayload) (q : WeatherApiPayload) :
    okArrayLengths (fetchFromOpenMeteo env (HttpOutcome.ok p)) =
      some (min 24 p.temperature2m.length, min 24 p.relativeHumidity2m.length,
        min 24 p.cloudCover.length) ∧
    okArrayLengths (fetchFromWeatherAPI env (HttpOutcome.ok q)) =
      some (q.hours.length, q.hours.length, q.hours.length) := by
  constructor
  · show some (((p.temperature2m.take 24).length, (p.relativeHumidity2m.take 24).length,
      (p.cloudCover.take 24).length) : ℕ × ℕ × ℕ) = _
    simp
  · show some (((q.hours.map WapiHour.tempC).length, (q.hours.map WapiHour.humidity).length,
      (q.hours.map WapiHour.cloud).length) : ℕ × ℕ × ℕ) = _
    simp

/-- C4 counterexample: both adapters succeed on decoded payloads whose hourly
arrays have twelve entries, returning twelve-element arrays instead of
failing with a SchemaError. -/
theorem c4_counterexample :
    okArrayLengths (fetchFromOpenMeteo envBoom (HttpOutcome.ok om12)) =
      some (12, 12, 12) ∧
    okArrayLengths (fetchFromWeatherAPI envBoom (HttpOutcome.ok wa12)) =
      some (12, 12, 12) := by
  exact ⟨rfl, rfl⟩

/-- Evaluation of the synthesized temperature at hour 5 for the profile
minT 12, maxT 28: the cosine argument is zero, so the curve sits at the
minimum. -/
theorem tempAt_12_28_at5 : tempAt 12 28 5 = 12 := by
  unfold tempAt
  have harg : (((5 : ℕ) : ℝ) - 5) * 2 * Real.pi / 24 = 0 := by
    push_cast
    ring
  rw [harg, Real.cos_zero]
  rw [show (12 + (28 - 12) * ((1 - 1) / 2) : ℝ) = ((120 : ℤ) : ℝ) / 10 by norm_num]
  rw [toFixed1_intTenth]
  norm_num

/-- Evaluation of the synthesized temperature at hour 17 for the profile
minT 12, maxT 28: the cosine argument is pi, so the curve attains the
maximum there. -/
theorem tempAt_12_28_at17 : tempAt 12 28 17 = 28 := by
  unfold tempAt
  have harg : (((17 : ℕ) : ℝ) - 5) * 2 * Real.pi / 24 = Real.pi := by
    push_cast
    ring
  rw [harg, Real.cos_pi]
  rw [show (12 + (28 - 12) * ((1 - -1) / 2) : ℝ) = ((280 : ℤ) : ℝ) / 10 by norm_num]
  rw [toFixed1_intTenth]
  norm_num

/-- Evaluation of the synthesized temperature at hour 15 for the profile
minT 12, maxT 28: the cosine argument is pi minus pi over six, the raw value
is 20 plus four root three, and rounding gives 26.9 — not the maximum. -/
theorem tempAt_12_28_at15 : tempAt 12 28 15 = 269 / 10 := by
  unfold tempAt
  have harg : (((15 : ℕ) : ℝ) - 5) * 2 * Real.pi / 24 = Real.pi - Real.pi / 6 := by
    push_cast
    ring
  rw [harg, Real.cos_pi_sub, Real.cos_pi_div_six]
  have hs1 : Real.sqrt 3 ^ 2 = 3 := Real.sq_sqrt (by norm_num)
  have hs2 : (0 : ℝ) ≤ Real.sqrt 3 := Real.sqrt_nonneg 3
  have hlow : (1.73 : ℝ) ≤ Real.sqrt 3 := by nlinarith
  have hhigh : Real.sqrt 3 < 1.7375 := by nlinarith
  have heval : toFixed1 (12 + (28 - 12) * ((1 - -(Real.sqrt 3 / 2)) / 2)) =
      ((269 : ℤ) : ℝ) / 10 := by
    apply toFixed1_eq
    · push_cast
      nlinarith
    · push_cast
      nlinarith
  rw [heval]
  norm_num

/-- C5 (amended): the offline synthesis temperature curve attains its minimum
at hour 5 and its maximum at hour 17 (where the cosine argument reaches pi),
not at hour 15; for the profile minT 12, maxT 28 it satisfies temp(5) = 12
and temp(17) = 28, and every hourly value lies between those extremes. -/
theorem c5_curve_extremes :
    tempAt 12 28 5 = 12 ∧ tempAt 12 28 17 = 28 ∧
    ∀ h : Fin 24, tempAt 12 28 5 ≤ tempAt 12 28 h ∧
      tempAt 12 28 h ≤ tempAt 12 28 17 := by
  refine ⟨tempAt_12_28_at5, tempAt_12_28_at17, ?_⟩
  intro h
  have hb := tempAt_bounds 12 28 h (by norm_num)
    ⟨120, by norm_num⟩ ⟨280, by norm_num⟩
  rw [tempAt_12_28_at5, tempAt_12_28_at17]
  exact hb

/-- C5 counterexample: for minT 12 and maxT 28 the curve of the source
formula gives temp(15) = 26.9, which is not approximately 28, and the value
28 is attained at hour 17, strictly above the hour-15 value — so the claimed
maximum at hour 15 is false of the very formula the claim states. -/
theorem c5_counterexample :
    tempAt 12 28 15 = 269 / 10 ∧ tempAt 12 28 17 = 28 ∧
    tempAt 12 28 15 < tempAt 12 28 17 := by
  refine ⟨tempAt_12_28_at15, tempAt_12_28_at17, ?_⟩
  rw [tempAt_12_28_at15, tempAt_12_28_at17]
  norm_num

/-- C10: for every integer index argument and every noise source, every value
of the hourlyTemp array of the offline synthesis lies within [minT, maxT] of
the selected climate profile: the half-cosine weight stays in [0, 1] and
rounding to one decimal cannot escape the interval because every profile
bound is an exact tenth. -/
theorem c10_temp_bounds (env : WeatherEnv) (i : ℤ) :
    ∀ x ∈ (getAgraOfflineData env i).hourlyTemp,
      ((agraLookup i).minT : ℝ) ≤ x ∧ x ≤ ((agraLookup i).maxT : ℝ) := by
  intro x hx
  have hx2 : x ∈ (List.range 24).map
      (tempAt ((agraLookup i).minT : ℝ) ((agraLookup i).maxT : ℝ)) := hx
  rw [List.mem_map] at hx2
  obtain ⟨h, _, rfl⟩ := hx2
  have hp := agra_profile_props _ (agraLookup_mem i)
  exact tempAt_bounds _ _ h (by exact_mod_cast hp.1)
    (tenth_cast _ hp.2.1) (tenth_cast _ hp.2.2.1)

/-- C10 witness: the bound applied to the hour-0 element of the synthesis for
index 0. -/
theorem c10_witness :
    tempAt ((agraLookup 0).minT : ℝ) ((agraLookup 0).maxT : ℝ) 0 ∈
      (getAgraOfflineData envHalf 0).hourlyTemp ∧
    (((agraLookup 0).minT : ℝ) ≤
        tempAt ((agraLookup 0).minT : ℝ) ((agraLookup 0).maxT : ℝ) 0 ∧
      tempAt ((agraLookup 0).minT : ℝ) ((agraLookup 0).maxT : ℝ) 0 ≤
        ((agraLookup 0).maxT : ℝ)) := by
  have hmem : tempAt ((agraLookup 0).minT : ℝ) ((agraLookup 0).maxT : ℝ) 0 ∈
      (getAgraOfflineData envHalf 0).hourlyTemp := by
    show _ ∈ (List.range 24).map
      (tempAt ((agraLookup 0).minT : ℝ) ((agraLookup 0).maxT : ℝ))
    exact List.mem_map_of_mem _ (by simp)
  exact ⟨hmem, c10_temp_bounds envHalf 0 _ hmem⟩

/-- Inside the buildup window the synthesized cloud value exceeds the
triangular base value minus the rounding slack, whatever the in-band noise:
the raw value lies in [c, c + 15), rounding moves it by less than one
twentieth, and the clamp is inactive there. -/
theorem cloudAt_buildup_lower (noise : ℕ → ℝ) (h : ℕ)
    (hr : 0 ≤ noise h ∧ noise h < 1) (h1 : 12 ≤ h) (h2 : h ≤ 18) (c : ℝ)
    (hc : 40 * (1 - |(h : ℝ) - 15| / 4) = c) (hc40 : c ≤ 40) :
    c - 1 / 20 < cloudAt CloudKind.buildup noise h := by
  unfold cloudAt cloudRaw
  rw [if_pos ⟨h1, h2⟩, hc]
  have hv1 := lt_toFixed1 (c + noise h * 15)
  have hv2 := toFixed1_le (c + noise h * 15)
  have hle100 : toFixed1 (c + noise h * 15) ≤ 100 := by linarith [hr.2]
  rw [min_eq_right hle100]
  have hlow : c - 1 / 20 < toFixed1 (c + noise h * 15) := by linarith [hr.1]
  exact lt_of_lt_of_le hlow (le_max_right _ _)

/-- Outside the buildup window the synthesized cloud value is nonnegative and
stays below ten plus the rounding slack, whatever the in-band noise. -/
theorem cloudAt_buildup_outside (noise : ℕ → ℝ) (h : ℕ)
    (hr : 0 ≤ noise h ∧ noise h < 1) (hout : ¬ (12 ≤ h ∧ h ≤ 18)) :
    0 ≤ cloudAt CloudKind.buildup noise h ∧
      cloudAt CloudKind.buildup noise h < 10 + 1 / 20 := by
  unfold cloudAt cloudRaw
  rw [if_neg hout]
  refine ⟨le_max_left _ _, ?_⟩
  have hv2 := toFixed1_le (noise h * 10)
  have hlt : toFixed1 (noise h * 10) < 10 + 1 / 20 := by linarith [hr.2]
  exact max_lt (by norm_num)
    (lt_of_le_of_lt (min_le_right 100 _) hlt)

/-- C9: for the AFTERNOON_BUILDUP profile (table row 3), for every noise
sequence within the specified bands (each draw in [0, 1), scaled by the code
to [0, 15) inside the window and [0, 10) outside), the mean synthesized cloud
cover over hours 13 through 17 is strictly greater than the mean over hours
0 through 4: the five window hours each exceed 19.95 (their triangular base
values summing to 140), while the five night hours each stay below 10.05. -/
theorem c9_afternoon_buildup (env : WeatherEnv)
    (hn : ∀ h : ℕ, 0 ≤ env.noise h ∧ env.noise h < 1) :
    ((((getAgraOfflineData env 3).hourlyCloud.drop 13).take 5).sum) / 5 >
      (((getAgraOfflineData env 3).hourlyCloud.take 5).sum) / 5 := by
  have hkind : (agraLookup 3).cloudProfile = CloudKind.buildup := by decide
  have hcl : (getAgraOfflineData env 3).hourlyCloud =
      (List.range 24).map (cloudAt CloudKind.buildup env.noise) := by
    show (List.range 24).map (cloudAt (agraLookup 3).cloudProfile env.noise) = _
    rw [hkind]
  have hdrop : (((List.range 24).map (cloudAt CloudKind.buildup env.noise)).drop 13).take 5 =
      [cloudAt CloudKind.buildup env.noise 13, cloudAt CloudKind.buildup env.noise 14,
       cloudAt CloudKind.buildup env.noise 15, cloudAt CloudKind.buildup env.noise 16,
       cloudAt CloudKind.buildup env.noise 17] := rfl
  have htake : ((List.range 24).map (cloudAt CloudKind.buildup env.noise)).take 5 =
      [cloudAt CloudKind.buildup env.noise 0, cloudAt CloudKind.buildup env.noise 1,
       cloudAt CloudKind.buildup env.noise 2, cloudAt CloudKind.buildup env.noise 3,
       cloudAt CloudKind.buildup env.noise 4] := rfl
  rw [hcl, hdrop, htake]
  simp only [List.sum_cons, List.sum_nil]
  have h13 := cloudAt_buildup_lower env.noise 13 (hn 13) (by norm_num) (by norm_num) 20
    (by push_cast; rw [abs_of_nonpos (by norm_num)]; norm_num) (by norm_num)
  have h14 := cloudAt_buildup_lower env.noise 14 (hn 14) (by norm_num) (by norm_num) 30
    (by push_cast; rw [abs_of_nonpos (by norm_num)]; norm_num) (by norm_num)
  have h15 := cloudAt_buildup_lower env.noise 15 (hn 15) (by norm_num) (by norm_num) 40
    (by push_cast; rw [abs_of_nonpos (by norm_num)]; norm_num) (by norm_num)
  have h16 := cloudAt_buildup_lower env.noise 16 (hn 16) (by norm_num) (by norm_num) 30
    (by push_cast; rw [abs_of_nonneg (by norm_num)]; norm_num) (by norm_num)
  have h17 := cloudAt_buildup_lower env.noise 17 (hn 17) (by norm_num) (by norm_num) 20
    (by push_cast; rw [abs_of_nonneg (by norm_num)]; norm_num) (by norm_num)
  have h0 := cloudAt_buildup_outside env.noise 0 (hn 0) (by omega)
  have h1 := cloudAt_buildup_outside env.noise 1 (hn 1) (by omega)
  have h2 := cloudAt_buildup_outside env.noise 2 (hn 2) (by omega)
  have h3 := cloudAt_buildup_outside env.noise 3 (hn 3) (by omega)
  have h4 := cloudAt_buildup_outside env.noise 4 (hn 4) (by omega)
  rw [gt_iff_lt, div_lt_div_iff₀ (by norm_num) (by norm_num)]
  nlinarith [h13, h14, h15, h16, h17, h0.1, h0.2, h1.1, h1.2, h2.1, h2.2,
    h3.1, h3.2, h4.1, h4.2]

/-- C9 witness: the mean inequality at the constant noise one half. -/
theorem c9_witness :
    (∀ h : ℕ, 0 ≤ envHalf.noise h ∧ envHalf.noise h < 1) ∧
    ((((getAgraOfflineData envHalf 3).hourlyCloud.drop 13).take 5).sum) / 5 >
      (((getAgraOfflineData envHalf 3).hourlyCloud.take 5).sum) / 5 := by
  have hb : ∀ h : ℕ, 0 ≤ envHalf.noise h ∧ envHalf.noise h < 1 := by
    intro h
    constructor
    · norm_num [envHalf]
    · norm_num [envHalf]
  exact ⟨hb, c9_afternoon_buildup envHalf hb⟩
